import Mathlib

/-!
Verification of the covid_analyzer pipeline (src/covid_analyzer.py).

The embedding models:
- one raw feed record (fields `denominazione_regione`, `totale_casi`, `data`);
- `CovidDataAnalyzer.process_data` (region filter, numeric coercion, date
  filters, group-by-region sum, final two-key sort);
- `CovidDataAnalyzer.fetch_data` / `load_data_from_file` as transitions on the
  analyzer state, with the external outcomes (HTTP status, exceptions, file
  presence) as an explicit outcome type;
- `CovidDataAnalyzer.get_json_data` and the Flask handler `get_covid_data`
  (date parameter reading, defaulting, validation, response shaping);
- the date handling of `main` (CLI argument parsing and validation).

Dates are triples of numerals ordered lexicographically, matching how Python
`datetime.date` values compare; `datetime.strptime(s, "%Y-%m-%d").date()` is
modelled by a digit-wise parser of the same format.
-/

/-- A calendar date as produced by `datetime.strptime(s, "%Y-%m-%d").date()`;
comparison is lexicographic on (year, month, day), as for Python dates. -/
structure Date where
  y : Nat
  m : Nat
  d : Nat
deriving DecidableEq, Repr

/-- Boolean `a <= b` on dates (Python date comparison, lexicographic). -/
def Date.ble (a b : Date) : Bool :=
  decide (a.y < b.y)
    || (decide (a.y = b.y)
      && (decide (a.m < b.m) || (decide (a.m = b.m) && decide (a.d ≤ b.d))))

/-- Boolean `a < b` on dates (Python date comparison, lexicographic). -/
def Date.blt (a b : Date) : Bool :=
  decide (a.y < b.y)
    || (decide (a.y = b.y)
      && (decide (a.m < b.m) || (decide (a.m = b.m) && decide (a.d < b.d))))

theorem Date.blt_irrefl (a : Date) : Date.blt a a = false := by
  unfold Date.blt
  simp

/-- Split a character list at the dashes; `acc` holds the reversed current
component. -/
def splitDashes : List Char → List Char → List (List Char)
  | [], acc => [acc.reverse]
  | c :: rest, acc =>
    if c = '-' then acc.reverse :: splitDashes rest [] else splitDashes rest (c :: acc)

/-- The decimal value of a nonempty digit string, `none` otherwise. -/
def digitsValAux : List Char → Nat → Option Nat
  | [], acc => some acc
  | c :: rest, acc =>
    if c.isDigit then digitsValAux rest (acc * 10 + (c.toNat - 48)) else none

/-- The decimal value of a nonempty digit string, `none` otherwise. -/
def digitsVal : List Char → Option Nat
  | [] => none
  | cs => digitsValAux cs 0

/-- Model of `datetime.strptime(s, "%Y-%m-%d").date()`: the string must be
three dash-separated decimal components with a plausible month and day;
any other string raises ValueError, modelled as `none`. -/
def parseDate (s : String) : Option Date :=
  match splitDashes s.toList [] with
  | [ys, ms, ds] =>
    match digitsVal ys, digitsVal ms, digitsVal ds with
    | some yv, some mv, some dv =>
      if 1 ≤ mv ∧ mv ≤ 12 ∧ 1 ≤ dv ∧ dv ≤ 31 then some ⟨yv, mv, dv⟩ else none
    | _, _, _ => none
  | _ => none

/-- The `totale_casi` cell of a raw record: either a numeric value, or
anything `pd.to_numeric(..., errors="coerce")` turns into NaN (a missing or
non-numeric cell). -/
inductive RawCases where
  | num (n : Int)
  | invalid
deriving DecidableEq, Repr

/-- One raw feed record, with the source column names.
`denominazione_regione` is `none` when the cell is null/missing (pandas NaN);
the `data` column is assumed to parse (`pd.to_datetime` on the feed). -/
structure RawRec where
  denominazione_regione : Option String
  totale_casi : RawCases
  data : Date
deriving DecidableEq, Repr

/-- `pd.to_numeric(x, errors="coerce").fillna(0)` on one cell. -/
def parseCases : RawCases → Int
  | .num n => n
  | .invalid => 0

/-- Line 74-75 of the source: `df = df[df["data"] >= self.date_start]`,
applied only when a start date is set. -/
def filterStart : Option Date → List RawRec → List RawRec
  | some s, l => l.filter (fun r => Date.ble s r.data)
  | none, l => l

/-- Line 77-78 of the source: `df = df[df["data"] <= self.date_end]`,
applied only when an end date is set. -/
def filterEnd : Option Date → List RawRec → List RawRec
  | some e, l => l.filter (fun r => Date.ble r.data e)
  | none, l => l

/-- Lines 66-78 of `process_data`: drop rows whose region is null
(`notna`), then apply the two optional date filters.  Rows whose region is
the empty string are kept, exactly as `notna` keeps them. -/
def includedRecords (ds de : Option Date) (l : List RawRec) : List RawRec :=
  filterEnd de (filterStart ds (l.filter (fun r => r.denominazione_regione.isSome)))

/-- The (region, coerced cases) view of the filtered rows: the two columns
`groupby` and `sum` actually consume. -/
def keyedCases (l : List RawRec) : List (String × Int) :=
  l.map (fun r => (r.denominazione_regione.getD "", parseCases r.totale_casi))

/-- The summed `totale_casi` of the group of key `k`. -/
def groupSum (kv : List (String × Int)) (k : String) : Int :=
  ((kv.filter (fun p => decide (p.1 = k))).map Prod.snd).sum

/-- Line 81: `df.groupby("denominazione_regione")["totale_casi"].sum()` as a
list of (region, total) rows, one per distinct region key.  The key order
produced here is irrelevant: `process_data` immediately re-sorts by the two
sort keys below, which order these rows totally. -/
def regionTotals (kv : List (String × Int)) : List (String × Int) :=
  ((kv.map Prod.fst).dedup).map (fun k => (k, groupSum kv k))

/-- The order of line 84-87: `sort_values(by=["totale_casi",
"denominazione_regione"], ascending=[False, True])` — cases descending,
region name ascending on equal cases. -/
def regOrder (a b : String × Int) : Prop :=
  b.2 < a.2 ∨ (a.2 = b.2 ∧ a.1 ≤ b.1)

instance : DecidableRel regOrder := fun a b => by
  unfold regOrder; infer_instance

/-- `process_data` end to end: filters, grouping, and the final sort; the
result is the list bound to `self.regions_data` (line 90). -/
def aggregate (ds de : Option Date) (l : List RawRec) : List (String × Int) :=
  List.insertionSort regOrder (regionTotals (keyedCases (includedRecords ds de l)))

instance : IsTotal (String × Int) regOrder := by
  constructor
  intro a b
  unfold regOrder
  rcases lt_trichotomy a.2 b.2 with h | h | h
  · exact Or.inr (Or.inl h)
  · rcases le_total a.1 b.1 with hs | hs
    · exact Or.inl (Or.inr ⟨h, hs⟩)
    · exact Or.inr (Or.inr ⟨h.symm, hs⟩)
  · exact Or.inl (Or.inl h)

instance : IsTrans (String × Int) regOrder := by
  constructor
  intro a b c hab hbc
  unfold regOrder at *
  rcases hab with h1 | ⟨h1, h1s⟩ <;> rcases hbc with h2 | ⟨h2, h2s⟩
  · exact Or.inl (by omega)
  · exact Or.inl (by omega)
  · exact Or.inl (by omega)
  · exact Or.inr ⟨h1.trans h2, h1s.trans h2s⟩

instance : IsAntisymm (String × Int) regOrder := by
  constructor
  intro a b hab hba
  obtain ⟨a1, a2⟩ := a
  obtain ⟨b1, b2⟩ := b
  unfold regOrder at hab hba
  dsimp at hab hba
  have h2 : a2 = b2 := by
    rcases hab with h | ⟨h, _⟩ <;> rcases hba with h2 | ⟨h2, _⟩ <;> omega
  subst h2
  have h1 : a1 = b1 := by
    rcases hab with h | ⟨_, hs⟩
    · exact absurd h (lt_irrefl _)
    · rcases hba with h2 | ⟨_, hs2⟩
      · exact absurd h2 (lt_irrefl _)
      · exact le_antisymm hs hs2
  rw [h1]

/-- C1: for every input record set (and any date bounds), the aggregated
result is sorted by total cases descending, with ties in total cases ordered
by region name ascending. -/
theorem aggregate_sorted (ds de : Option Date) (l : List RawRec) :
    List.Sorted regOrder (aggregate ds de l) :=
  List.sorted_insertionSort regOrder _

theorem groupSum_nil (k : String) : groupSum [] k = 0 := rfl

theorem groupSum_cons (p : String × Int) (t : List (String × Int)) (k : String) :
    groupSum (p :: t) k = (if p.1 = k then p.2 else 0) + groupSum t k := by
  unfold groupSum
  by_cases h : p.1 = k <;> simp [List.filter_cons, h]

theorem sum_map_groupSum_cons (ks : List String) (p : String × Int) (t : List (String × Int))
    (hnd : ks.Nodup) (hk : p.1 ∈ ks) :
    (ks.map (groupSum (p :: t))).sum = p.2 + (ks.map (groupSum t)).sum := by
  induction ks with
  | nil => cases hk
  | cons a rest ih =>
    rw [List.nodup_cons] at hnd
    rcases List.mem_cons.mp hk with heq | hmem
    · have hrest : rest.map (groupSum (p :: t)) = rest.map (groupSum t) := by
        apply List.map_congr_left
        intro k hkmem
        rw [groupSum_cons]
        have hne : p.1 ≠ k := by
          intro hc
          have hmem2 : a ∈ rest := by
            rw [← heq, hc]
            exact hkmem
          exact hnd.1 hmem2
        rw [if_neg hne, zero_add]
      rw [List.map_cons, List.sum_cons, List.map_cons, List.sum_cons, hrest,
        groupSum_cons, if_pos heq]
      omega
    · have hne : p.1 ≠ a := by
        intro hc
        exact hnd.1 (hc ▸ hmem)
      rw [List.map_cons, List.sum_cons, List.map_cons, List.sum_cons,
        groupSum_cons, if_neg hne, ih hnd.2 hmem]
      omega

theorem sum_groupSum (ks : List String) (hnd : ks.Nodup) :
    ∀ kv : List (String × Int), (∀ p ∈ kv, p.1 ∈ ks) →
      (ks.map (groupSum kv)).sum = (kv.map Prod.snd).sum := by
  intro kv
  induction kv with
  | nil =>
    intro _
    have h0 : groupSum ([] : List (String × Int)) = fun _ => (0 : Int) :=
      funext fun _ => rfl
    rw [h0]
    simp
  | cons p t ih =>
    intro hcov
    rw [sum_map_groupSum_cons ks p t hnd (hcov p (List.mem_cons_self p t)),
      ih (fun q hq => hcov q (List.mem_cons_of_mem p hq))]
    simp

/-- C2: for every record set and date bounds, the sum of the totals in the
aggregated result equals the sum of the coerced `totale_casi` values over the
records that pass the region filter and both date filters. -/
theorem aggregate_sum_eq (ds de : Option Date) (l : List RawRec) :
    ((aggregate ds de l).map Prod.snd).sum
      = ((includedRecords ds de l).map (fun r => parseCases r.totale_casi)).sum := by
  unfold aggregate
  have hperm :=
    List.perm_insertionSort regOrder (regionTotals (keyedCases (includedRecords ds de l)))
  rw [(hperm.map Prod.snd).sum_eq]
  unfold regionTotals
  rw [List.map_map]
  have hcomp : (Prod.snd ∘ fun k => (k, groupSum (keyedCases (includedRecords ds de l)) k))
      = groupSum (keyedCases (includedRecords ds de l)) := rfl
  rw [hcomp]
  rw [sum_groupSum _ (List.nodup_dedup _) _
    (fun p hp => List.mem_dedup.mpr (List.mem_map_of_mem Prod.fst hp))]
  unfold keyedCases
  rw [List.map_map]
  rfl

/-- C9: aggregation is invariant under permutation of the input records. -/
theorem aggregate_perm_invariant (ds de : Option Date) (l1 l2 : List RawRec)
    (hp : l1.Perm l2) : aggregate ds de l1 = aggregate ds de l2 := by
  have hinc : (includedRecords ds de l1).Perm (includedRecords ds de l2) := by
    cases ds <;> cases de
    · exact hp.filter _
    · exact (hp.filter _).filter _
    · exact (hp.filter _).filter _
    · exact ((hp.filter _).filter _).filter _
  have hkv : (keyedCases (includedRecords ds de l1)).Perm
      (keyedCases (includedRecords ds de l2)) := hinc.map _
  have hg : groupSum (keyedCases (includedRecords ds de l1))
      = groupSum (keyedCases (includedRecords ds de l2)) := by
    funext k
    unfold groupSum
    exact ((hkv.filter _).map _).sum_eq
  have hks : ((keyedCases (includedRecords ds de l1)).map Prod.fst).dedup.Perm
      ((keyedCases (includedRecords ds de l2)).map Prod.fst).dedup :=
    (hkv.map _).dedup
  have htot : (regionTotals (keyedCases (includedRecords ds de l1))).Perm
      (regionTotals (keyedCases (includedRecords ds de l2))) := by
    unfold regionTotals
    rw [hg]
    exact hks.map _
  exact List.eq_of_perm_of_sorted
    ((List.perm_insertionSort _ _).trans (htot.trans (List.perm_insertionSort _ _).symm))
    (List.sorted_insertionSort _ _) (List.sorted_insertionSort _ _)

def recPermA : RawRec :=
  { denominazione_regione := some "Lombardia", totale_casi := .num 4, data := ⟨2024, 1, 1⟩ }

def recPermB : RawRec :=
  { denominazione_regione := some "Lazio", totale_casi := .num 2, data := ⟨2024, 1, 2⟩ }

/-- Witness for C9 at a concrete two-record swap. -/
theorem aggregate_perm_invariant_witness :
    aggregate none none [recPermA, recPermB] = aggregate none none [recPermB, recPermA] :=
  aggregate_perm_invariant none none [recPermA, recPermB] [recPermB, recPermA]
    (List.Perm.swap recPermB recPermA [])

theorem includedRecords_none_cons (ds de : Option Date) (c : RawCases) (dt : Date)
    (l : List RawRec) :
    includedRecords ds de
        ({ denominazione_regione := none, totale_casi := c, data := dt } :: l)
      = includedRecords ds de l := by
  unfold includedRecords
  simp [List.filter_cons]

/-- C5 (amended): a record whose region is missing/null is dropped by
aggregation and is not an error — the remaining records are processed
unchanged; a record whose region is the empty string, however, is retained
and aggregated under the empty-string region key. -/
theorem null_region_excluded :
    (∀ (c : RawCases) (dt : Date) (ds de : Option Date) (l : List RawRec),
      aggregate ds de ({ denominazione_regione := none, totale_casi := c, data := dt } :: l)
        = aggregate ds de l)
    ∧ (∀ (c : RawCases) (dt : Date),
      aggregate none none [{ denominazione_regione := some "", totale_casi := c, data := dt }]
        = [("", parseCases c)]) := by
  constructor
  · intro c dt ds de l
    unfold aggregate
    rw [includedRecords_none_cons]
  · intro c dt
    simp [aggregate, regionTotals, keyedCases, includedRecords, filterStart, filterEnd,
      groupSum, List.insertionSort, List.orderedInsert, List.filter_cons, List.dedup]

def recEmptyRegion : RawRec :=
  { denominazione_regione := some "", totale_casi := .num 5, data := ⟨2024, 1, 1⟩ }

/-- C5 counterexample: a record whose region is the empty string is not
excluded — aggregating a batch holding only that record yields a group for
the empty-string region instead of the empty result the claim requires. -/
theorem empty_region_retained :
    aggregate none none [recEmptyRegion] = [("", 5)]
    ∧ ("", (5 : Int)) ∈ aggregate none none [recEmptyRegion] := by
  constructor
  · rfl
  · decide

/-- C6: a record whose `totale_casi` is missing or non-numeric contributes
exactly what a record with value 0 would, for any region, date, bounds and
surrounding batch, and the pipeline is total, so it never fails. -/
theorem invalid_cases_as_zero (reg : Option String) (dt : Date) (ds de : Option Date)
    (l : List RawRec) :
    aggregate ds de
        ({ denominazione_regione := reg, totale_casi := .invalid, data := dt } :: l)
      = aggregate ds de
        ({ denominazione_regione := reg, totale_casi := .num 0, data := dt } :: l) := by
  have h : keyedCases (includedRecords ds de
        ({ denominazione_regione := reg, totale_casi := .invalid, data := dt } :: l))
      = keyedCases (includedRecords ds de
        ({ denominazione_regione := reg, totale_casi := .num 0, data := dt } :: l)) := by
    unfold includedRecords filterStart filterEnd keyedCases
    cases ds <;> cases de <;> cases reg <;>
      simp [List.filter_cons, parseCases, apply_ite (List.filter _), apply_ite (List.map _)]
  unfold aggregate
  rw [h]

/-- The mutable fields of `CovidDataAnalyzer` that the pipeline reads and
writes: the configured bounds and the last computed result. -/
structure AnalyzerState where
  date_start : Option Date
  date_end : Option Date
  regions_data : Option (List (String × Int))
deriving DecidableEq, Repr

/-- The outcome of the external `requests.get` call in `fetch_data`:
a 200 response whose JSON payload is a record list, a non-200 status,
a raised RequestException, or a raised JSONDecodeError. -/
inductive FetchOutcome where
  | success (allData : List RawRec)
  | non200 (code : Nat)
  | requestError (msg : String)
  | jsonError (msg : String)
deriving DecidableEq, Repr

/-- The outcome of opening and JSON-decoding the local file in
`load_data_from_file`: the decoded record list, a missing file, or any
exception while reading/decoding. -/
inductive FileOutcome where
  | found (allData : List RawRec)
  | notFound
  | loadError (msg : String)
deriving DecidableEq, Repr

/-- `process_data` as a state transition: recompute and store
`regions_data` from the configured bounds (line 90 of the source). -/
def process_data (st : AnalyzerState) (df : List RawRec) : AnalyzerState :=
  { st with regions_data := some (aggregate st.date_start st.date_end df) }

/-- `CovidDataAnalyzer.fetch_data` (lines 26-56): on a 200 response the
payload is processed and True returned; on a non-200 status or either
handled exception an error is printed and False returned, with no state
change. -/
def fetch_data (st : AnalyzerState) (out : FetchOutcome) : Bool × AnalyzerState :=
  match out with
  | .success d => (true, process_data st d)
  | .non200 _ => (false, st)
  | .requestError _ => (false, st)
  | .jsonError _ => (false, st)

/-- `CovidDataAnalyzer.load_data_from_file` (lines 161-186): a present,
decodable file is processed; a missing file or any exception yields False
with no state change. -/
def load_data_from_file (st : AnalyzerState) (out : FileOutcome) : Bool × AnalyzerState :=
  match out with
  | .found d => (true, process_data st d)
  | .notFound => (false, st)
  | .loadError _ => (false, st)

/-- C10: every failing outcome of `fetch_data` and `load_data_from_file`
(non-200 status, request exception, missing file, load/parse error) returns
False and leaves the analyzer state — in particular `regions_data` —
exactly as it was. -/
theorem fetch_failure_preserves_state :
    ∀ (st : AnalyzerState) (code : Nat) (m1 m2 m3 : String),
      fetch_data st (.non200 code) = (false, st)
      ∧ fetch_data st (.requestError m1) = (false, st)
      ∧ fetch_data st (.jsonError m2) = (false, st)
      ∧ load_data_from_file st .notFound = (false, st)
      ∧ load_data_from_file st (.loadError m3) = (false, st) :=
  fun _ _ _ _ _ => ⟨rfl, rfl, rfl, rfl, rfl⟩

def msgStartFmt : String :=
  "Error: The date_start format is incorrect. It must be YYYY-MM-DD"

def msgEndFmt : String :=
  "Error: The date_end format is incorrect. It must be YYYY-MM-DD"

def msgInverted : String :=
  "Error: The date_start is greater than date_end. The end date must be after the start date."

/-- One `datetime.strptime` block of `main`/`get_covid_data`: a supplied
string is parsed (raising `errMsg` on ValueError); an absent one leaves the
analyzer bound at its prior value `dflt`. -/
def parseSupplied (errMsg : String) (dflt : Option Date) :
    Option String → Except String (Option Date)
  | some s =>
    match parseDate s with
    | some d => .ok (some d)
    | none => .error errMsg
  | none => .ok dflt

/-- The inverted-range guard (CLI lines 280-283, HTTP lines 226-227): when
both bounds are set and start exceeds end, raise; otherwise hand back the
bounds.  On the HTTP path both bounds are always set when this runs, so the
unguarded Python comparison of line 226 never sees `None`. -/
def checkRange (ds de : Option Date) : Except String (Option Date × Option Date) :=
  match de, ds with
  | some e, some s => if Date.blt e s then .error msgInverted else .ok (ds, de)
  | _, _ => .ok (ds, de)

/-- The date handling of `main` (lines 261-283): parse each supplied CLI
flag (exiting with an error naming the flag on a malformed value), default
both bounds to today only when neither flag was supplied, then reject a
resolved range whose start exceeds its end.  `Except.error` is the printed
message of the `sys.exit(1)` path; `Except.ok` carries the analyzer bounds
as configured when `main` proceeds to the fetch/load step. -/
def mainResolve (argStart argEnd : Option String) (today : Date) :
    Except String (Option Date × Option Date) :=
  match parseSupplied msgStartFmt none argStart with
  | .error e => .error e
  | .ok ds0 =>
    match parseSupplied msgEndFmt none argEnd with
    | .error e => .error e
    | .ok de0 =>
      if argStart.isNone && argEnd.isNone then checkRange (some today) (some today)
      else checkRange ds0 de0

/-- The date handling of the Flask handler `get_covid_data` (lines 206-227).
Both local variables read the `date_start` query parameter — line 207 of the
source is `request.args.get("date_start")` for `date_end` as well — so the
`qEnd` parameter below is never read, exactly as in the source.  When the
parameter is absent both analyzer bounds are set to today; the placeholder
`none` of the other branch is never read, because in that branch both
parses below overwrite it or raise.  A raised exception is answered by the
handler as a 400, modelled by `Except.error`. -/
def httpResolve (qStart qEnd : Option String) (today : Date) :
    Except String (Option Date × Option Date) :=
  let date_start := qStart
  let date_end := qStart
  let s0 : Option Date := if date_start.isNone || date_end.isNone then some today else none
  let e0 : Option Date := if date_start.isNone || date_end.isNone then some today else none
  match parseSupplied msgStartFmt s0 date_start with
  | .error e => .error e
  | .ok s1 =>
    match parseSupplied msgEndFmt e0 date_end with
    | .error e => .error e
    | .ok e1 => checkRange s1 e1

/-- C3 counterexample: on the CLI, supplying only `--date_start 2024-01-01`
on 2024-03-05 leaves the end bound unset — it is not resolved to the
current date, so not both bounds are concrete before aggregation. -/
theorem cli_missing_end_not_today :
    mainResolve (some "2024-01-01") none ⟨2024, 3, 5⟩
      = Except.ok (some ⟨2024, 1, 1⟩, none)
    ∧ ((some ⟨2024, 1, 1⟩, none) : Option Date × Option Date)
      ≠ (some ⟨2024, 1, 1⟩, some ⟨2024, 3, 5⟩) := by
  constructor
  · rfl
  · decide

/-- C3 (amended): both bounds default to the current date only when no bound
is supplied.  On the CLI a single supplied bound leaves the other bound
unset (an open range); on the HTTP endpoint both bounds follow the
date_start parameter — its parsed value for both when it is present, today
for both when it is absent — and the date_end parameter is ignored. -/
theorem resolve_missing_bound_rules :
    (∀ today : Date, mainResolve none none today = .ok (some today, some today))
    ∧ (∀ (s : String) (d today : Date), parseDate s = some d →
        mainResolve (some s) none today = .ok (some d, none))
    ∧ (∀ (s : String) (d today : Date), parseDate s = some d →
        mainResolve none (some s) today = .ok (none, some d))
    ∧ (∀ (s : String) (d today : Date) (qe : Option String), parseDate s = some d →
        httpResolve (some s) qe today = .ok (some d, some d))
    ∧ (∀ (qe : Option String) (today : Date),
        httpResolve none qe today = .ok (some today, some today)) := by
  refine ⟨?_, ?_, ?_, ?_, ?_⟩
  · intro today
    simp [mainResolve, parseSupplied, checkRange, Date.blt_irrefl]
  · intro s d today h
    simp [mainResolve, parseSupplied, checkRange, h]
  · intro s d today h
    simp [mainResolve, parseSupplied, checkRange, h]
  · intro s d today qe h
    simp [httpResolve, parseSupplied, checkRange, h, Date.blt_irrefl]
  · intro qe today
    simp [httpResolve, parseSupplied, checkRange, Date.blt_irrefl]

/-- Witness for C3 (amended) at concrete inputs. -/
theorem resolve_missing_bound_rules_witness :
    mainResolve (some "2024-02-10") none ⟨2025, 6, 1⟩
      = Except.ok (some ⟨2024, 2, 10⟩, none)
    ∧ httpResolve (some "2024-02-10") (some "2024-12-31") ⟨2025, 6, 1⟩
      = Except.ok (some ⟨2024, 2, 10⟩, some ⟨2024, 2, 10⟩) := by
  have h := resolve_missing_bound_rules
  exact ⟨h.2.1 "2024-02-10" ⟨2024, 2, 10⟩ ⟨2025, 6, 1⟩ rfl,
    h.2.2.2.1 "2024-02-10" ⟨2024, 2, 10⟩ ⟨2025, 6, 1⟩ (some "2024-12-31") rfl⟩

/-- A JSON response body: the error object, or the regions object built by
`get_json_data` from the (region, total) rows. -/
inductive Body where
  | errObj (msg : String)
  | regionsObj (l : List (String × Int))
deriving DecidableEq, Repr

/-- `CovidDataAnalyzer.get_json_data` (lines 147-159): an unset or empty
`regions_data` is Python-falsy and yields the error object; otherwise the
regions object listing each (region, total) row in order. -/
def get_json_data (rd : Option (List (String × Int))) : Body :=
  match rd with
  | none => .errObj "No data available"
  | some [] => .errObj "No data available"
  | some l => .regionsObj l

/-- The Flask handler `get_covid_data` (lines 202-241) as a function of the
query parameters, the current date, the prior analyzer state and the
external fetch outcome, returning status code and body.  A validation
exception is answered 400 (lines 240-241); a failed fetch is answered 400
when the date_start parameter was supplied and 500 otherwise (lines
229-237); a successful fetch is answered 200 with the `get_json_data` body
(line 239). -/
def get_covid_data (st : AnalyzerState) (qStart qEnd : Option String) (today : Date)
    (out : FetchOutcome) : Nat × Body :=
  match httpResolve qStart qEnd today with
  | .error msg => (400, .errObj msg)
  | .ok (s1, e1) =>
    match fetch_data { st with date_start := s1, date_end := e1 } out with
    | (true, st2) => (200, get_json_data st2.regions_data)
    | (false, _) =>
      if qStart.isSome then (400, .errObj "Failed to fetch data.")
      else (500, .errObj "Failed to fetch data for current date")

def stFresh : AnalyzerState := { date_start := none, date_end := none, regions_data := none }

def recMay : RawRec :=
  { denominazione_regione := some "Lombardia", totale_casi := .num 7, data := ⟨2024, 5, 1⟩ }

/-- C4: requesting date_start=2024-05-01 and date_end=2024-01-01 — an
inverted range — is not rejected: line 207 reads date_start for both
bounds, the range silently becomes [2024-05-01, 2024-05-01], and a
successful fetch is answered 200. -/
theorem http_inverted_range_succeeds :
    get_covid_data stFresh (some "2024-05-01") (some "2024-01-01") ⟨2025, 1, 1⟩
        (.success [recMay])
      = (200, .regionsObj [("Lombardia", 7)]) := by
  decide

def recJun : RawRec :=
  { denominazione_regione := some "Lazio", totale_casi := .num 3, data := ⟨2024, 6, 15⟩ }

/-- C7: a malformed date_end query parameter is never parsed and never
rejected: with date_start absent and date_end=31/12/2024 the handler
resolves both bounds to today and answers 200, instead of the 400 naming
date_end that the claim requires; the supplied value is not used. -/
theorem http_malformed_end_ignored :
    get_covid_data stFresh none (some "31/12/2024") ⟨2024, 6, 15⟩ (.success [recJun])
      = (200, .regionsObj [("Lazio", 3)]) := by
  decide

def recJan : RawRec :=
  { denominazione_regione := some "Veneto", totale_casi := .num 9, data := ⟨2024, 1, 1⟩ }

/-- C8 counterexample: a successful request whose range matches zero records
is answered 200 with the error object "No data available", not with an
empty regions list. -/
theorem http_empty_result_error_body :
    get_covid_data stFresh (some "2024-02-01") none ⟨2024, 2, 2⟩ (.success [recJan])
      = (200, .errObj "No data available")
    ∧ get_covid_data stFresh (some "2024-02-01") none ⟨2024, 2, 2⟩ (.success [recJan])
      ≠ (200, .regionsObj []) := by
  decide

/-- C8 (amended): a request that passes validation and whose fetch succeeds
is answered with status 200; the body is the regions object when at least
one record matches the range, but it is the error object "No data
available" — still with status 200 — when zero records match. -/
theorem http_success_response_shape (st : AnalyzerState) (qs qe : Option String)
    (today : Date) (data : List RawRec) (s1 e1 : Option Date)
    (hres : httpResolve qs qe today = .ok (s1, e1)) :
    (aggregate s1 e1 data ≠ [] →
      get_covid_data st qs qe today (.success data)
        = (200, .regionsObj (aggregate s1 e1 data)))
    ∧ (aggregate s1 e1 data = [] →
      get_covid_data st qs qe today (.success data)
        = (200, .errObj "No data available")) := by
  constructor
  · intro hne
    cases hagg : aggregate s1 e1 data with
    | nil => exact absurd hagg hne
    | cons a t =>
      unfold get_covid_data
      rw [hres]
      simp only [fetch_data, process_data, hagg, get_json_data]
  · intro hempty
    unfold get_covid_data
    rw [hres]
    simp only [fetch_data, process_data, hempty, get_json_data]

/-- Witness for C8 (amended) at a concrete successful request. -/
theorem http_success_response_shape_witness :
    get_covid_data stFresh (some "2024-05-01") none ⟨2025, 1, 2⟩ (.success [recMay])
      = (200, .regionsObj [("Lombardia", 7)]) := by
  have h := http_success_response_shape stFresh (some "2024-05-01") none ⟨2025, 1, 2⟩
    [recMay] (some ⟨2024, 5, 1⟩) (some ⟨2024, 5, 1⟩) (by rfl)
  exact (h.1 (by decide)).trans (by decide)
